import Mathlib

/-!
Shallow embedding of `src/programs/serum_market.rs`: the Serum market
instruction projector `fragment_instruction`, its record structs, the
destination-table constants and the Avro schema field layouts.

Modelling conventions:
- Machine integers are `Nat`/`Int`; the Rust casts `u64 as i64`, `u16 as i16`
  and enum-to-`i16` casts are the explicit functions `u64_as_i64` /
  `u16_as_i16` below.
- The external decoder `MarketInstruction::unpack` is a black box; it is
  passed to `fragment_instruction` as a function argument `unpack`.
- Account indexing `instruction.accounts[i].account.to_string()` panics in
  Rust when out of bounds.  It is modelled at two levels: totally via
  `acct` (`List.getD` with default `""`), faithful wherever every read is
  in bounds or a property is independent of account values, and faithfully
  to the panic via `acctChecked` and the `...Checked` builders together
  with `fragment_instruction_checked`, where an out-of-bounds read yields
  `none` (the call aborts and no record is produced).
- The `tracing::error!` diagnostic sink is modelled by returning the list of
  emitted log messages alongside the result.
- In the `CancelOrderByClientId` arm the source reads `order.side` where no
  variable `order` is bound in that arm (the decoded variant carries only a
  client id).  The value of that out-of-scope expression is modelled as an
  explicit parameter `ghost_order_side` of `fragment_instruction`.
- The Avro `Schema` values are opaque handles downstream; they are modelled
  by the enumeration `SchemaHandle`, and their field layouts (used by the
  shape invariant) are transcribed separately as `schemaFields`.  The source
  key expressions name `SERUM_MARKET_SCHEMA`; the only market schema defined
  in the file is `SERUM_MARKETS_SCHEMA`, embedded as `SchemaHandle.markets`.
-/

/-- Opaque handle for each of the six Avro schemas defined in the file. -/
inductive SchemaHandle where
  | markets
  | orders
  | cancelledOrders
  | sendTakes
  | prune
  | marketDisable
deriving DecidableEq

def SERUM_MARKET_TABLE_NAME : String := "serum_markets"
def SERUM_ORDER_TABLE_NAME : String := "serum_orders"
def SERUM_CANCELLED_ORDER_TABLE_NAME : String := "serum_cancelled_orders"
def SERUM_SEND_TAKE_TABLE_NAME : String := "serum_send_takes"
def SERUM_PRUNE_TABLE_NAME : String := "serum_prunes"
def SERUM_MARKET_DISABLE_TABLE_NAME : String := "serum_market_disables"

/-- Routing key: (destination table name, schema handle). -/
abbrev RoutingKey := String × SchemaHandle

/-- Avro field type, as used in the six schema declarations. -/
inductive FieldType where
  | string
  | long
  | int
  | nullString
  | nullInt
deriving DecidableEq

/-- Field layout of each Avro schema, transcribed from the JSON literals in
the `lazy_static` block (`timestamp-millis` logical type is carried on a
`long`). -/
def schemaFields : SchemaHandle → List (String × FieldType)
  | .markets =>
      [("market", .string), ("request_queue_account", .string),
       ("event_queue_account", .string), ("bids_account", .string),
       ("asks_account", .string), ("coin_account", .string),
       ("coin_mint", .string), ("price_account", .string),
       ("price_mint", .string), ("open_order_authority", .nullString),
       ("prune_authority", .nullString), ("crank_authority", .nullString),
       ("coin_lot_size", .long), ("price_currency_lot_size", .long),
       ("fee_rate_bps", .long), ("pc_dust_threshold", .long),
       ("timestamp", .long)]
  | .orders =>
      [("client_order_id", .long), ("order_type", .int), ("side", .int),
       ("limit", .nullInt), ("limit_price", .long), ("max_quantity", .long),
       ("market", .string), ("self_trade_behavior", .nullInt),
       ("paying_account", .string), ("coin_vault", .string),
       ("pc_vault", .string), ("msrm_discount_account", .nullString),
       ("timestamp", .long)]
  | .cancelledOrders =>
      [("market", .string), ("side", .nullInt), ("order_id", .string),
       ("open_order_owner", .string), ("timestamp", .long)]
  | .sendTakes =>
      [("market", .string), ("side", .int), ("limit_price", .long),
       ("max_quantity", .long), ("max_pc_qty_incl_fees", .long),
       ("min_coin_qty", .long), ("min_pc_qty", .long),
       ("coin_wallet_account", .string), ("pc_wallet_account", .string),
       ("coin_vault", .string), ("pc_vault", .string),
       ("msrm_discount_account", .nullString), ("timestamp", .long)]
  | .prune =>
      [("market", .string), ("limit", .int), ("open_orders", .string),
       ("open_orders_owner", .string), ("timestamp", .long)]
  | .marketDisable =>
      [("market", .string), ("authority", .string), ("timestamp", .long)]

/-- Rust `u64 as i64`: reinterpret the low 64 bits as a signed value. -/
def u64_as_i64 (n : Nat) : Int :=
  if n % 2 ^ 64 < 2 ^ 63 then ((n % 2 ^ 64 : Nat) : Int)
  else ((n % 2 ^ 64 : Nat) : Int) - 2 ^ 64

/-- Rust `u16 as i16` (also covers the enum-discriminant-to-`i16` casts,
whose operands are small): reinterpret the low 16 bits as a signed value. -/
def u16_as_i16 (n : Nat) : Int :=
  if n % 2 ^ 16 < 2 ^ 15 then ((n % 2 ^ 16 : Nat) : Int)
  else ((n % 2 ^ 16 : Nat) : Int) - 2 ^ 16

/-- One account reference of an instruction; only its address is used. -/
structure AccountRef where
  account : String
deriving DecidableEq

/-- Input instruction: raw payload bytes, ordered account list, timestamp
(milliseconds since epoch). -/
structure Instruction where
  data : List Nat
  accounts : List AccountRef
  timestamp : Int
deriving DecidableEq

/-- Account address at position `i` (`instruction.accounts[i].account`),
total with default `""`. -/
def acct (instruction : Instruction) (i : Nat) : String :=
  (instruction.accounts.getD i ⟨""⟩).account

/-- Decoded payload of `InitializeMarket` (fields read by the projector). -/
structure InitializeMarketInstruction where
  coin_lot_size : Nat
  pc_lot_size : Nat
  fee_rate_bps : Nat
  pc_dust_threshold : Nat
deriving DecidableEq

/-- Decoded payload of `NewOrder` (v1); enum fields carried as their
numeric codes. -/
structure NewOrderInstructionV1 where
  side : Nat
  limit_price : Nat
  max_qty : Nat
  order_type : Nat
  client_id : Nat
deriving DecidableEq

/-- Decoded payload of `NewOrderV2`: v1 fields plus self-trade behavior. -/
structure NewOrderInstructionV2 where
  side : Nat
  limit_price : Nat
  max_qty : Nat
  order_type : Nat
  client_id : Nat
  self_trade_behavior : Nat
deriving DecidableEq

/-- Decoded payload of `NewOrderV3`, with the fields the projector reads
(including a `limit` field, present only in v3). -/
structure NewOrderInstructionV3 where
  side : Nat
  limit_price : Nat
  max_qty : Nat
  order_type : Nat
  client_id : Nat
  self_trade_behavior : Nat
  limit : Nat
deriving DecidableEq

/-- Decoded payload of `CancelOrder` (v1): side code and 128-bit order id. -/
structure CancelOrderInstruction where
  side : Nat
  order_id : Nat
deriving DecidableEq

/-- Decoded payload of `CancelOrderV2`: side code and 128-bit order id. -/
structure CancelOrderInstructionV2 where
  side : Nat
  order_id : Nat
deriving DecidableEq

/-- Decoded payload of `SendTake` (fields read by the projector). -/
structure SendTakeInstruction where
  side : Nat
  limit_price : Nat
  max_coin_qty : Nat
  max_native_pc_qty_including_fees : Nat
  min_coin_qty : Nat
  min_native_pc_qty : Nat
deriving DecidableEq

/-- The closed set of decoded market instruction variants matched by
`fragment_instruction` (`serum_dex::instruction::MarketInstruction`). -/
inductive MarketInstruction where
  | InitializeMarket (imi : InitializeMarketInstruction)
  | NewOrder (order : NewOrderInstructionV1)
  | MatchOrders (limit : Nat)
  | ConsumeEvents (limit : Nat)
  | CancelOrder (order : CancelOrderInstruction)
  | SettleFunds
  | CancelOrderByClientId (client_id : Nat)
  | DisableMarket
  | SweepFees
  | NewOrderV2 (order : NewOrderInstructionV2)
  | NewOrderV3 (order : NewOrderInstructionV3)
  | CancelOrderV2 (order : CancelOrderInstructionV2)
  | CancelOrderByClientIdV2 (client_id : Nat)
  | SendTake (sti : SendTakeInstruction)
  | CloseOpenOrders
  | InitOpenOrders
  | Prune (limit : Nat)
  | ConsumeEventsPermissioned (limit : Nat)
deriving DecidableEq

/-- Output record struct `SerumMarket`. -/
structure SerumMarket where
  market : String
  request_queue_account : String
  event_queue_account : String
  bids_account : String
  asks_account : String
  coin_account : String
  coin_mint : String
  price_account : String
  price_mint : String
  open_order_authority : Option String
  prune_authority : Option String
  crank_authority : Option String
  coin_lot_size : Int
  price_currency_lot_size : Int
  fee_rate_bps : Int
  pc_dust_threshold : Int
  timestamp : Int
deriving DecidableEq

/-- Output record struct `MarketDisable`. -/
structure MarketDisable where
  market : String
  authority : String
  timestamp : Int
deriving DecidableEq

/-- Output record struct `FeeSweep`. -/
structure FeeSweep where
  market : String
  pc_vault : String
  fee_authority : String
  fee_receivable_account : String
  timestamp : Int
deriving DecidableEq

/-- Output record struct `SerumOrder` (i16 fields carried as `Int`). -/
structure SerumOrder where
  client_order_id : Int
  order_type : Int
  side : Int
  limit : Option Int
  limit_price : Int
  max_quantity : Int
  market : String
  self_trade_behavior : Option Int
  paying_account : String
  coin_vault : String
  pc_vault : String
  msrm_discount_account : Option String
  timestamp : Int
deriving DecidableEq

/-- Output record struct `CancelledOrder`. -/
structure CancelledOrder where
  market : String
  side : Option Int
  order_id : String
  open_order_owner : String
  timestamp : Int
deriving DecidableEq

/-- Output record struct `SendTake`. -/
structure SendTake where
  market : String
  side : Int
  limit_price : Int
  max_quantity : Int
  max_pc_qty_incl_fees : Int
  min_coin_qty : Int
  min_pc_qty : Int
  coin_wallet_account : String
  pc_wallet_account : String
  coin_vault : String
  pc_vault : String
  msrm_discount_account : Option String
  timestamp : Int
deriving DecidableEq

/-- Output record struct `Prune`. -/
structure Prune where
  market : String
  limit : Int
  open_orders : String
  open_orders_owner : String
  timestamp : Int
deriving DecidableEq

/-- Sum of the record kinds that may be stored in the accumulation (the
source erases them behind a single generic parameter). -/
inductive Record where
  | market (r : SerumMarket)
  | order (r : SerumOrder)
  | cancelledOrder (r : CancelledOrder)
  | sendTake (r : SendTake)
  | prune (r : Prune)
  | marketDisable (r : MarketDisable)
  | feeSweep (r : FeeSweep)
deriving DecidableEq

/-- Field layout of each record kind, transcribed from the Rust struct
declarations (`String` ↦ string, `i64` ↦ long, `i16` ↦ int,
`Option<String>` ↦ nullString, `Option<i16>` ↦ nullInt). -/
def recordShape : Record → List (String × FieldType)
  | .market _ =>
      [("market", .string), ("request_queue_account", .string),
       ("event_queue_account", .string), ("bids_account", .string),
       ("asks_account", .string), ("coin_account", .string),
       ("coin_mint", .string), ("price_account", .string),
       ("price_mint", .string), ("open_order_authority", .nullString),
       ("prune_authority", .nullString), ("crank_authority", .nullString),
       ("coin_lot_size", .long), ("price_currency_lot_size", .long),
       ("fee_rate_bps", .long), ("pc_dust_threshold", .long),
       ("timestamp", .long)]
  | .order _ =>
      [("client_order_id", .long), ("order_type", .int), ("side", .int),
       ("limit", .nullInt), ("limit_price", .long), ("max_quantity", .long),
       ("market", .string), ("self_trade_behavior", .nullInt),
       ("paying_account", .string), ("coin_vault", .string),
       ("pc_vault", .string), ("msrm_discount_account", .nullString),
       ("timestamp", .long)]
  | .cancelledOrder _ =>
      [("market", .string), ("side", .nullInt), ("order_id", .string),
       ("open_order_owner", .string), ("timestamp", .long)]
  | .sendTake _ =>
      [("market", .string), ("side", .int), ("limit_price", .long),
       ("max_quantity", .long), ("max_pc_qty_incl_fees", .long),
       ("min_coin_qty", .long), ("min_pc_qty", .long),
       ("coin_wallet_account", .string), ("pc_wallet_account", .string),
       ("coin_vault", .string), ("pc_vault", .string),
       ("msrm_discount_account", .nullString), ("timestamp", .long)]
  | .prune _ =>
      [("market", .string), ("limit", .int), ("open_orders", .string),
       ("open_orders_owner", .string), ("timestamp", .long)]
  | .marketDisable _ =>
      [("market", .string), ("authority", .string), ("timestamp", .long)]
  | .feeSweep _ =>
      [("market", .string), ("pc_vault", .string), ("fee_authority", .string),
       ("fee_receivable_account", .string), ("timestamp", .long)]

/-- The accumulation: mapping from routing key to ordered record list,
modelled as an association list. -/
abbrev ResponseMap := List (RoutingKey × List Record)

/-- The per-arm contains/push-or-insert pattern of the source. -/
def insertRecord (response : ResponseMap) (key : RoutingKey) (r : Record) :
    ResponseMap :=
  if response.any (fun kv => decide (kv.1 = key)) then
    response.map (fun kv => if kv.1 = key then (kv.1, kv.2 ++ [r]) else kv)
  else
    response ++ [(key, [r])]

/-- Severity levels of the diagnostic sink used by the file. -/
inductive LogLevel where
  | error
deriving DecidableEq

/-- One diagnostic message sent to the log sink. -/
structure LogMessage where
  level : LogLevel
  message : String
deriving DecidableEq

/-- The single diagnostic the source can emit (the `error!` call on the
unpack-failure path). -/
def unrecognisedInstructionLog : LogMessage :=
  { level := LogLevel.error
    message := "[processors/programs/serum/market] FATAL: Unrecognised instruction." }

/-- Record built by the `InitializeMarket` arm. -/
def initializeMarketRecord (instruction : Instruction)
    (imi : InitializeMarketInstruction) : SerumMarket :=
  { market := acct instruction 0
    request_queue_account := acct instruction 1
    event_queue_account := acct instruction 2
    bids_account := acct instruction 3
    asks_account := acct instruction 4
    coin_account := acct instruction 5
    coin_mint := acct instruction 7
    price_account := acct instruction 6
    price_mint := acct instruction 8
    open_order_authority :=
      if 11 ≤ instruction.accounts.length then some (acct instruction 10)
      else none
    prune_authority :=
      if 11 ≤ instruction.accounts.length then some (acct instruction 11)
      else none
    crank_authority :=
      if 11 ≤ instruction.accounts.length then some (acct instruction 12)
      else none
    coin_lot_size := u64_as_i64 imi.coin_lot_size
    price_currency_lot_size := u64_as_i64 imi.pc_lot_size
    fee_rate_bps := u64_as_i64 imi.fee_rate_bps
    pc_dust_threshold := u64_as_i64 imi.pc_dust_threshold
    timestamp := instruction.timestamp }

/-- Record built by the `NewOrder` (v1) arm. -/
def newOrderRecord (instruction : Instruction)
    (order : NewOrderInstructionV1) : SerumOrder :=
  { client_order_id := u64_as_i64 order.client_id
    order_type := u16_as_i16 order.order_type
    side := u16_as_i16 order.side
    limit := none
    limit_price := u64_as_i64 order.limit_price
    max_quantity := u64_as_i64 order.max_qty
    market := acct instruction 0
    self_trade_behavior := none
    paying_account := acct instruction 3
    coin_vault := acct instruction 5
    pc_vault := acct instruction 6
    msrm_discount_account := some (acct instruction 9)
    timestamp := instruction.timestamp }

/-- Record built by the `CancelOrder` (v1) arm. -/
def cancelOrderRecord (instruction : Instruction)
    (order : CancelOrderInstruction) : CancelledOrder :=
  { side := some (u16_as_i16 order.side)
    order_id := toString order.order_id
    market := acct instruction 0
    timestamp := instruction.timestamp
    open_order_owner := acct instruction 3 }

/-- Record built by the `CancelOrderByClientId` arm.  The source sets
`side: Some(order.side as i16)` where `order` is not bound in this arm;
that out-of-scope value is the parameter `ghost_order_side`. -/
def cancelOrderByClientIdRecord (instruction : Instruction)
    (client_id : Nat) (ghost_order_side : Int) : CancelledOrder :=
  { side := some ghost_order_side
    order_id := toString client_id
    market := acct instruction 0
    timestamp := instruction.timestamp
    open_order_owner := acct instruction 3 }

/-- Record built by the `DisableMarket` arm. -/
def marketDisableRecord (instruction : Instruction) : MarketDisable :=
  { market := acct instruction 0
    authority := acct instruction 1
    timestamp := instruction.timestamp }

/-- Record built by the `SweepFees` arm. -/
def feeSweepRecord (instruction : Instruction) : FeeSweep :=
  { market := acct instruction 0
    pc_vault := acct instruction 1
    fee_authority := acct instruction 2
    fee_receivable_account := acct instruction 3
    timestamp := instruction.timestamp }

/-- Record built by the `NewOrderV2` arm. -/
def newOrderV2Record (instruction : Instruction)
    (order : NewOrderInstructionV2) : SerumOrder :=
  { client_order_id := u64_as_i64 order.client_id
    order_type := u16_as_i16 order.order_type
    side := u16_as_i16 order.side
    limit := none
    limit_price := u64_as_i64 order.limit_price
    max_quantity := u64_as_i64 order.max_qty
    market := acct instruction 0
    self_trade_behavior := some (u16_as_i16 order.self_trade_behavior)
    paying_account := acct instruction 3
    coin_vault := acct instruction 5
    pc_vault := acct instruction 6
    msrm_discount_account :=
      if 12 ≤ instruction.accounts.length then some (acct instruction 9)
      else none
    timestamp := instruction.timestamp }

/-- Record built by the `NewOrderV3` arm. -/
def newOrderV3Record (instruction : Instruction)
    (order : NewOrderInstructionV3) : SerumOrder :=
  { client_order_id := u64_as_i64 order.client_id
    order_type := u16_as_i16 order.order_type
    side := u16_as_i16 order.side
    limit := some (u16_as_i16 order.limit)
    limit_price := u64_as_i64 order.limit_price
    max_quantity := u64_as_i64 order.max_qty
    market := acct instruction 0
    self_trade_behavior := some (u16_as_i16 order.self_trade_behavior)
    paying_account := acct instruction 6
    coin_vault := acct instruction 8
    pc_vault := acct instruction 9
    msrm_discount_account :=
      if 12 ≤ instruction.accounts.length then some (acct instruction 12)
      else none
    timestamp := instruction.timestamp }

/-- Record built by the `CancelOrderV2` arm. -/
def cancelOrderV2Record (instruction : Instruction)
    (order : CancelOrderInstructionV2) : CancelledOrder :=
  { side := some (u16_as_i16 order.side)
    order_id := toString order.order_id
    market := acct instruction 0
    timestamp := instruction.timestamp
    open_order_owner := acct instruction 4 }

/-- Record built by the `CancelOrderByClientIdV2` arm. -/
def cancelOrderByClientIdV2Record (instruction : Instruction)
    (client_id : Nat) : CancelledOrder :=
  { side := none
    order_id := toString client_id
    market := acct instruction 0
    timestamp := instruction.timestamp
    open_order_owner := acct instruction 3 }

/-- Record built by the `SendTake` arm. -/
def sendTakeRecord (instruction : Instruction)
    (sti : SendTakeInstruction) : SendTake :=
  { market := acct instruction 0
    side := u16_as_i16 sti.side
    limit_price := u64_as_i64 sti.limit_price
    max_quantity := u64_as_i64 sti.max_coin_qty
    max_pc_qty_incl_fees := u64_as_i64 sti.max_native_pc_qty_including_fees
    min_coin_qty := u64_as_i64 sti.min_coin_qty
    min_pc_qty := u64_as_i64 sti.min_native_pc_qty
    coin_wallet_account := acct instruction 5
    pc_wallet_account := acct instruction 6
    coin_vault := acct instruction 8
    pc_vault := acct instruction 9
    msrm_discount_account :=
      if 12 ≤ instruction.accounts.length then some (acct instruction 12)
      else none
    timestamp := instruction.timestamp }

/-- Record built by the `Prune` arm (`limit as i16` on the decoded `u16`). -/
def pruneRecord (instruction : Instruction) (limit : Nat) : Prune :=
  { market := acct instruction 0
    limit := u16_as_i16 limit
    open_orders := acct instruction 4
    open_orders_owner := acct instruction 5
    timestamp := instruction.timestamp }

/-- Shallow embedding of `fragment_instruction`: unpack the payload via the
external decoder, dispatch on the variant, and return the optional
accumulation together with the list of emitted diagnostics.  The `error!`
call is reached exactly when `unpack` recognises no variant, since every
match arm returns directly. -/
def fragment_instruction (unpack : List Nat → Option MarketInstruction)
    (ghost_order_side : Int) (instruction : Instruction) :
    Option ResponseMap × List LogMessage :=
  match unpack instruction.data with
  | some market_instruction =>
    match market_instruction with
    | .InitializeMarket imi =>
        (some (insertRecord [] (SERUM_MARKET_TABLE_NAME, SchemaHandle.markets)
          (Record.market (initializeMarketRecord instruction imi))), [])
    | .NewOrder order =>
        (some (insertRecord [] (SERUM_MARKET_TABLE_NAME, SchemaHandle.markets)
          (Record.order (newOrderRecord instruction order))), [])
    | .MatchOrders _ => (none, [])
    | .ConsumeEvents _ => (none, [])
    | .CancelOrder order =>
        (some (insertRecord [] (SERUM_MARKET_TABLE_NAME, SchemaHandle.markets)
          (Record.cancelledOrder (cancelOrderRecord instruction order))), [])
    | .SettleFunds => (none, [])
    | .CancelOrderByClientId client_id =>
        (some (insertRecord [] (SERUM_MARKET_TABLE_NAME, SchemaHandle.markets)
          (Record.cancelledOrder
            (cancelOrderByClientIdRecord instruction client_id
              ghost_order_side))), [])
    | .DisableMarket =>
        (some (insertRecord []
          (SERUM_MARKET_DISABLE_TABLE_NAME, SchemaHandle.marketDisable)
          (Record.marketDisable (marketDisableRecord instruction))), [])
    | .SweepFees =>
        (some (insertRecord []
          (SERUM_MARKET_DISABLE_TABLE_NAME, SchemaHandle.marketDisable)
          (Record.feeSweep (feeSweepRecord instruction))), [])
    | .NewOrderV2 order =>
        (some (insertRecord [] (SERUM_MARKET_TABLE_NAME, SchemaHandle.markets)
          (Record.order (newOrderV2Record instruction order))), [])
    | .NewOrderV3 order =>
        (some (insertRecord [] (SERUM_MARKET_TABLE_NAME, SchemaHandle.markets)
          (Record.order (newOrderV3Record instruction order))), [])
    | .CancelOrderV2 order =>
        (some (insertRecord [] (SERUM_MARKET_TABLE_NAME, SchemaHandle.markets)
          (Record.cancelledOrder (cancelOrderV2Record instruction order))), [])
    | .CancelOrderByClientIdV2 client_id =>
        (some (insertRecord [] (SERUM_MARKET_TABLE_NAME, SchemaHandle.markets)
          (Record.cancelledOrder
            (cancelOrderByClientIdV2Record instruction client_id))), [])
    | .SendTake sti =>
        (some (insertRecord []
          (SERUM_SEND_TAKE_TABLE_NAME, SchemaHandle.sendTakes)
          (Record.sendTake (sendTakeRecord instruction sti))), [])
    | .CloseOpenOrders => (none, [])
    | .InitOpenOrders => (none, [])
    | .Prune limit =>
        (some (insertRecord [] (SERUM_PRUNE_TABLE_NAME, SchemaHandle.prune)
          (Record.prune (pruneRecord instruction limit))), [])
    | .ConsumeEventsPermissioned _ => (none, [])
  | none => (none, [unrecognisedInstructionLog])

/-- Variants deliberately left unmapped by the projector (arms returning
`None` silently). -/
def isUnmapped : MarketInstruction → Bool
  | .SettleFunds => true
  | .CloseOpenOrders => true
  | .InitOpenOrders => true
  | .MatchOrders _ => true
  | .ConsumeEvents _ => true
  | .ConsumeEventsPermissioned _ => true
  | _ => false

/-- Whether an (optional) accumulation holds at most one key, with at most
one record under it (here: exactly one of each when present). -/
def atMostOneRecord : Option ResponseMap → Bool
  | none => true
  | some m => m.length == 1 && m.all (fun kv => kv.2.length == 1)

/-! Concrete fixtures used by witnesses and counterexamples. -/

/-- Build an account list from a list of address strings. -/
def mkAccounts (names : List String) : List AccountRef :=
  names.map AccountRef.mk

/-- Fixture: a decoded `NewOrder` (v1) payload. -/
def o1fix : NewOrderInstructionV1 :=
  { side := 1, limit_price := 100, max_qty := 200, order_type := 0,
    client_id := 7 }

/-- Fixture: a ten-account instruction for the `NewOrder` evaluation. -/
def instrC1 : Instruction :=
  { data := [10]
    accounts := mkAccounts ["a0", "a1", "a2", "a3", "a4", "a5", "a6", "a7",
      "a8", "a9"]
    timestamp := 1000 }

/-- Fixture: decoder recognising the payload as `NewOrder o1fix`. -/
def unpackW1 : List Nat → Option MarketInstruction :=
  fun _ => some (MarketInstruction.NewOrder o1fix)

/-- C1: the claim states that order records are keyed under the order table
and schema per the 1:1 table/record pairing.  Evaluating the code on a
`NewOrder` instruction shows the produced `SerumOrder` record is keyed under
the market table and market schema (source lines 316-317), not the declared
(but never used) `SERUM_ORDER_TABLE_NAME` / orders schema: the code
contradicts its own table and schema declarations. -/
theorem claim_c1_code_evaluation :
    (fragment_instruction unpackW1 0 instrC1).1 =
      some [((SERUM_MARKET_TABLE_NAME, SchemaHandle.markets),
             [Record.order (newOrderRecord instrC1 o1fix)])] ∧
    (SERUM_MARKET_TABLE_NAME, SchemaHandle.markets) ≠
      (SERUM_ORDER_TABLE_NAME, SchemaHandle.orders) :=
  ⟨rfl, by decide⟩

/-- Fixture: a four-account instruction for the `SweepFees` evaluation. -/
def instrC2 : Instruction :=
  { data := [11]
    accounts := mkAccounts ["m0", "m1", "m2", "m3"]
    timestamp := 2000 }

/-- Fixture: decoder recognising the payload as `SweepFees`. -/
def unpackW2 : List Nat → Option MarketInstruction :=
  fun _ => some MarketInstruction.SweepFees

/-- C2: the claim states every stored record is structurally identical in
shape to the schema of its routing key.  Evaluating the code on a
`SweepFees` instruction shows a `FeeSweep` record (fields market, pc_vault,
fee_authority, fee_receivable_account, timestamp) stored under the
market-disable key, whose schema has fields market, authority, timestamp:
the shapes differ, breaking the claimed invariant. -/
theorem claim_c2_code_evaluation :
    (fragment_instruction unpackW2 0 instrC2).1 =
      some [((SERUM_MARKET_DISABLE_TABLE_NAME, SchemaHandle.marketDisable),
             [Record.feeSweep (feeSweepRecord instrC2)])] ∧
    recordShape (Record.feeSweep (feeSweepRecord instrC2)) ≠
      schemaFields SchemaHandle.marketDisable :=
  ⟨rfl, by decide⟩

/-- Fixture: a decoded `InitializeMarket` payload. -/
def imiFix : InitializeMarketInstruction :=
  { coin_lot_size := 10, pc_lot_size := 20, fee_rate_bps := 3,
    pc_dust_threshold := 5 }

/-- Fixture: a thirteen-account `InitializeMarket` instruction. -/
def instrC3a : Instruction :=
  { data := [12]
    accounts := mkAccounts ["a0", "a1", "a2", "a3", "a4", "a5", "a6", "a7",
      "a8", "a9", "a10", "a11", "a12"]
    timestamp := 3000 }

/-- Fixture: a ten-account `InitializeMarket` instruction. -/
def instrC3b : Instruction :=
  { data := [13]
    accounts := mkAccounts ["b0", "b1", "b2", "b3", "b4", "b5", "b6", "b7",
      "b8", "b9"]
    timestamp := 3001 }

/-- Fixture: decoder recognising the payload as `InitializeMarket imiFix`. -/
def unpackW3 : List Nat → Option MarketInstruction :=
  fun _ => some (MarketInstruction.InitializeMarket imiFix)

/-- Fixture: a decoded `NewOrderV2` payload. -/
def o2fix : NewOrderInstructionV2 :=
  { side := 0, limit_price := 11, max_qty := 22, order_type := 1,
    client_id := 33, self_trade_behavior := 2 }

/-- Fixture: a decoded `NewOrderV3` payload. -/
def o3fix : NewOrderInstructionV3 :=
  { side := 1, limit_price := 12, max_qty := 23, order_type := 0,
    client_id := 34, self_trade_behavior := 1, limit := 6 }

/-- Fixture: a decoded `SendTake` payload. -/
def stiFix : SendTakeInstruction :=
  { side := 0, limit_price := 13, max_coin_qty := 24,
    max_native_pc_qty_including_fees := 35, min_coin_qty := 2,
    min_native_pc_qty := 3 }

/-- Fixture: a twelve-account `NewOrderV2` instruction. -/
def instrC4a : Instruction :=
  { data := [2]
    accounts := mkAccounts ["c0", "c1", "c2", "c3", "c4", "c5", "c6", "c7",
      "c8", "c9", "c10", "c11"]
    timestamp := 4000 }

/-- Fixture: a thirteen-account `NewOrderV3` instruction. -/
def instrC4b : Instruction :=
  { data := [3]
    accounts := mkAccounts ["d0", "d1", "d2", "d3", "d4", "d5", "d6", "d7",
      "d8", "d9", "d10", "d11", "d12"]
    timestamp := 4001 }

/-- Fixture: an eleven-account `SendTake` instruction. -/
def instrC4c : Instruction :=
  { data := [4]
    accounts := mkAccounts ["e0", "e1", "e2", "e3", "e4", "e5", "e6", "e7",
      "e8", "e9", "e10"]
    timestamp := 4002 }

/-- Fixture: decoder mapping the three payloads of the C4 witness. -/
def unpackW4 : List Nat → Option MarketInstruction
  | [2] => some (MarketInstruction.NewOrderV2 o2fix)
  | [3] => some (MarketInstruction.NewOrderV3 o3fix)
  | _ => some (MarketInstruction.SendTake stiFix)

/-- C5: when the external decoder recognises no variant, the call returns
absent, completes normally, and emits exactly the one fatal diagnostic;
when decoding succeeds, no diagnostic is emitted. -/
theorem claim_c5_unrecognised_diagnostic
    (unpack : List Nat → Option MarketInstruction) (g : Int)
    (i1 i2 : Instruction) (mi : MarketInstruction)
    (h1 : unpack i1.data = none)
    (h2 : unpack i2.data = some mi) :
    (fragment_instruction unpack g i1).1 = none ∧
    (fragment_instruction unpack g i1).2 = [unrecognisedInstructionLog] ∧
    (fragment_instruction unpack g i1).2.length = 1 ∧
    (fragment_instruction unpack g i2).2 = [] := by
  refine ⟨?_, ?_, ?_, ?_⟩
  · unfold fragment_instruction
    rw [h1]
  · unfold fragment_instruction
    rw [h1]
  · unfold fragment_instruction
    rw [h1]
    rfl
  · unfold fragment_instruction
    rw [h2]
    cases mi <;> rfl

/-- Fixture: a two-account instruction whose payload is not decodable. -/
def instrC5a : Instruction :=
  { data := [255], accounts := mkAccounts ["f0", "f1"], timestamp := 5000 }

/-- Fixture: an instruction whose payload decodes to `DisableMarket`. -/
def instrC5b : Instruction :=
  { data := [5], accounts := mkAccounts ["g0", "g1"], timestamp := 5001 }

/-- Fixture: decoder failing on `[255]` and succeeding elsewhere. -/
def unpackW5 : List Nat → Option MarketInstruction
  | [255] => none
  | _ => some MarketInstruction.DisableMarket

/-- Witness for C5: on the undecodable payload the result is absent and the
log is exactly the one fatal message; on the decodable payload no
diagnostic is emitted. -/
theorem claim_c5_witness :
    (fragment_instruction unpackW5 0 instrC5a).1 = none ∧
    (fragment_instruction unpackW5 0 instrC5a).2 =
      [unrecognisedInstructionLog] ∧
    (fragment_instruction unpackW5 0 instrC5a).2.length = 1 ∧
    (fragment_instruction unpackW5 0 instrC5b).2 = [] :=
  claim_c5_unrecognised_diagnostic unpackW5 0 instrC5a instrC5b
    MarketInstruction.DisableMarket rfl rfl

/-- C6: every deliberately-unmapped variant (SettleFunds, CloseOpenOrders,
InitOpenOrders, MatchOrders, ConsumeEvents, ConsumeEventsPermissioned)
yields absent regardless of the account list, with no diagnostic. -/
theorem claim_c6_unmapped_silent
    (unpack : List Nat → Option MarketInstruction) (g : Int)
    (instr : Instruction) (mi : MarketInstruction)
    (h : unpack instr.data = some mi)
    (hu : isUnmapped mi = true) :
    fragment_instruction unpack g instr = (none, []) := by
  unfold fragment_instruction
  rw [h]
  cases mi <;> first | rfl | simp [isUnmapped] at hu

/-- Fixture: an instruction whose payload decodes to `SettleFunds`. -/
def instrC6 : Instruction :=
  { data := [6], accounts := mkAccounts ["h0"], timestamp := 6000 }

/-- Fixture: decoder recognising the payload as `SettleFunds`. -/
def unpackW6 : List Nat → Option MarketInstruction :=
  fun _ => some MarketInstruction.SettleFunds

/-- Witness for C6: a `SettleFunds` instruction yields absent with no
diagnostic. -/
theorem claim_c6_witness :
    fragment_instruction unpackW6 0 instrC6 = (none, []) :=
  claim_c6_unmapped_silent unpackW6 0 instrC6 MarketInstruction.SettleFunds
    rfl rfl

/-- C7: every call returns either absent or an accumulation holding exactly
one routing key with exactly one record under it, and whenever the decoded
variant is a mapped (case-b) one the accumulation is non-absent. -/
theorem claim_c7_single_record
    (unpack : List Nat → Option MarketInstruction) (g : Int)
    (instr instr2 : Instruction) (mi : MarketInstruction)
    (h : unpack instr2.data = some mi)
    (hb : isUnmapped mi = false) :
    atMostOneRecord (fragment_instruction unpack g instr).1 = true ∧
    (fragment_instruction unpack g instr2).1 ≠ none := by
  constructor
  · cases hh : unpack instr.data with
    | none =>
      unfold fragment_instruction
      rw [hh]
      rfl
    | some mi2 =>
      unfold fragment_instruction
      rw [hh]
      cases mi2 <;> rfl
  · unfold fragment_instruction
    rw [h]
    cases mi <;>
      first
        | (intro hc; exact Option.noConfusion hc)
        | simp [isUnmapped] at hb

/-- Fixture: an instruction whose payload decodes to `DisableMarket`,
a mapped variant. -/
def instrC7 : Instruction :=
  { data := [7], accounts := mkAccounts ["k0", "k1"], timestamp := 7000 }

/-- Fixture: decoder recognising the payload as `DisableMarket`. -/
def unpackW7 : List Nat → Option MarketInstruction :=
  fun _ => some MarketInstruction.DisableMarket

/-- Witness for C7: on a `DisableMarket` instruction the accumulation holds
exactly one key with one record and is non-absent. -/
theorem claim_c7_witness :
    atMostOneRecord (fragment_instruction unpackW7 0 instrC7).1 = true ∧
    (fragment_instruction unpackW7 0 instrC7).1 ≠ none :=
  claim_c7_single_record unpackW7 0 instrC7 instrC7
    MarketInstruction.DisableMarket rfl rfl

/-- C8: a `CancelOrderByClientIdV2` instruction yields a `CancelledOrder`
with side absent, order id the decoded client id, market accounts[0] and
owner accounts[3]; asymmetrically, `CancelOrderV2` always sets side. -/
theorem claim_c8_client_id_v2_side_absent
    (unpack : List Nat → Option MarketInstruction) (g : Int)
    (i1 i2 : Instruction) (cid : Nat) (o2 : CancelOrderInstructionV2)
    (h1 : unpack i1.data =
      some (MarketInstruction.CancelOrderByClientIdV2 cid))
    (h2 : unpack i2.data = some (MarketInstruction.CancelOrderV2 o2)) :
    (fragment_instruction unpack g i1).1 =
      some [((SERUM_MARKET_TABLE_NAME, SchemaHandle.markets),
             [Record.cancelledOrder (cancelOrderByClientIdV2Record i1 cid)])] ∧
    (cancelOrderByClientIdV2Record i1 cid).side = none ∧
    (cancelOrderByClientIdV2Record i1 cid).order_id = toString cid ∧
    (cancelOrderByClientIdV2Record i1 cid).market = acct i1 0 ∧
    (cancelOrderByClientIdV2Record i1 cid).open_order_owner = acct i1 3 ∧
    (fragment_instruction unpack g i2).1 =
      some [((SERUM_MARKET_TABLE_NAME, SchemaHandle.markets),
             [Record.cancelledOrder (cancelOrderV2Record i2 o2)])] ∧
    (cancelOrderV2Record i2 o2).side = some (u16_as_i16 o2.side) ∧
    (cancelOrderV2Record i2 o2).side.isSome = true := by
  refine ⟨?_, rfl, rfl, rfl, rfl, ?_, rfl, rfl⟩
  · unfold fragment_instruction
    rw [h1]
    rfl
  · unfold fragment_instruction
    rw [h2]
    rfl

/-- Fixture: a six-account `CancelOrderByClientIdV2` instruction. -/
def instrC8a : Instruction :=
  { data := [8]
    accounts := mkAccounts ["p0", "p1", "p2", "p3", "p4", "p5"]
    timestamp := 8000 }

/-- Fixture: a six-account `CancelOrderV2` instruction. -/
def instrC8b : Instruction :=
  { data := [9]
    accounts := mkAccounts ["q0", "q1", "q2", "q3", "q4", "q5"]
    timestamp := 8001 }

/-- Fixture: a decoded `CancelOrderV2` payload with a side value. -/
def co2fix : CancelOrderInstructionV2 := { side := 1, order_id := 99 }

/-- Fixture: decoder mapping the two payloads of the C8 witness. -/
def unpackW8 : List Nat → Option MarketInstruction
  | [8] => some (MarketInstruction.CancelOrderByClientIdV2 55)
  | _ => some (MarketInstruction.CancelOrderV2 co2fix)

/-- Witness for C8: the by-client-id-v2 record has side absent and the
documented fields; the v2 record has side present. -/
theorem claim_c8_witness :
    (cancelOrderByClientIdV2Record instrC8a 55).side = none ∧
    (cancelOrderByClientIdV2Record instrC8a 55).order_id = "55" ∧
    (cancelOrderByClientIdV2Record instrC8a 55).market = "p0" ∧
    (cancelOrderByClientIdV2Record instrC8a 55).open_order_owner = "p3" ∧
    (cancelOrderV2Record instrC8b co2fix).side.isSome = true := by
  have h := claim_c8_client_id_v2_side_absent unpackW8 0 instrC8a instrC8b
    55 co2fix rfl rfl
  exact ⟨h.2.1, h.2.2.1.trans (by decide), h.2.2.2.1.trans (by decide),
    h.2.2.2.2.1.trans (by decide), h.2.2.2.2.2.2.2⟩

/-- Fixture: a four-account `CancelOrderByClientId` (v1) instruction. -/
def instrC9 : Instruction :=
  { data := [14]
    accounts := mkAccounts ["r0", "r1", "r2", "r3"]
    timestamp := 9000 }

/-- Fixture: decoder recognising the payload as
`CancelOrderByClientId 7`. -/
def unpackW9 : List Nat → Option MarketInstruction :=
  fun _ => some (MarketInstruction.CancelOrderByClientId 7)

/-- Counterexample for C9: the claim says the record's side is sourced from
the decoded order's side field, but the decoded `CancelOrderByClientId`
variant carries only a client id; the source expression `Some(order.side as
i16)` reads a variable `order` not bound in that arm.  Holding the decoded
instruction and account list fixed while the out-of-scope value differs
changes the output, so side is not a function of the decoded
instruction. -/
theorem claim_c9_counterexample :
    unpackW9 instrC9.data =
      some (MarketInstruction.CancelOrderByClientId 7) ∧
    (cancelOrderByClientIdRecord instrC9 7 0).side ≠
      (cancelOrderByClientIdRecord instrC9 7 1).side ∧
    (fragment_instruction unpackW9 0 instrC9).1 ≠
      (fragment_instruction unpackW9 1 instrC9).1 :=
  ⟨rfl, by decide, by decide⟩

/-- C9 (amended): a `CancelOrderByClientId` (v1) instruction yields exactly
one `CancelledOrder` with market accounts[0], owner accounts[3] and order
id the decoded client id, while side is `some` of the out-of-scope
`order.side` value (`ghost_order_side`), not derived from the decoded
instruction. -/
theorem claim_c9_client_id_v1_record
    (unpack : List Nat → Option MarketInstruction) (g : Int)
    (instr : Instruction) (cid : Nat)
    (h : unpack instr.data =
      some (MarketInstruction.CancelOrderByClientId cid)) :
    (fragment_instruction unpack g instr).1 =
      some [((SERUM_MARKET_TABLE_NAME, SchemaHandle.markets),
             [Record.cancelledOrder
               (cancelOrderByClientIdRecord instr cid g)])] ∧
    (cancelOrderByClientIdRecord instr cid g).market = acct instr 0 ∧
    (cancelOrderByClientIdRecord instr cid g).open_order_owner =
      acct instr 3 ∧
    (cancelOrderByClientIdRecord instr cid g).order_id = toString cid ∧
    (cancelOrderByClientIdRecord instr cid g).side = some g := by
  refine ⟨?_, rfl, rfl, rfl, rfl⟩
  unfold fragment_instruction
  rw [h]
  rfl

/-- Witness for the amended C9: concrete record fields at a four-account
instruction with client id 7 and out-of-scope side value 1. -/
theorem claim_c9_witness :
    (cancelOrderByClientIdRecord instrC9 7 1).market = "r0" ∧
    (cancelOrderByClientIdRecord instrC9 7 1).open_order_owner = "r3" ∧
    (cancelOrderByClientIdRecord instrC9 7 1).order_id = "7" ∧
    (cancelOrderByClientIdRecord instrC9 7 1).side = some 1 := by
  have h := claim_c9_client_id_v1_record unpackW9 1 instrC9 7 rfl
  exact ⟨h.2.1.trans (by decide), h.2.2.1.trans (by decide),
    h.2.2.2.1.trans (by decide), h.2.2.2.2⟩

/-- C10: the Prune record's limit is the decoded unsigned 16-bit limit
reinterpreted as a signed 16-bit integer: below 2^15 it is kept exactly,
at or above 2^15 it becomes the decoded value minus 2^16. -/
theorem claim_c10_prune_limit_reinterpret
    (unpack : List Nat → Option MarketInstruction) (g : Int)
    (instr : Instruction) (limit : Nat)
    (h : unpack instr.data = some (MarketInstruction.Prune limit))
    (hw : limit < 2 ^ 16) :
    (fragment_instruction unpack g instr).1 =
      some [((SERUM_PRUNE_TABLE_NAME, SchemaHandle.prune),
             [Record.prune (pruneRecord instr limit)])] ∧
    (limit < 2 ^ 15 → (pruneRecord instr limit).limit = (limit : Int)) ∧
    (2 ^ 15 ≤ limit →
      (pruneRecord instr limit).limit = (limit : Int) - 2 ^ 16) := by
  refine ⟨?_, ?_, ?_⟩
  · unfold fragment_instruction
    rw [h]
    rfl
  · intro hl
    show u16_as_i16 limit = (limit : Int)
    unfold u16_as_i16
    rw [Nat.mod_eq_of_lt hw, if_pos hl]
  · intro hl
    show u16_as_i16 limit = (limit : Int) - 2 ^ 16
    unfold u16_as_i16
    rw [Nat.mod_eq_of_lt hw, if_neg (not_lt.mpr hl)]

/-- Fixture: a six-account `Prune` instruction for the small limit. -/
def instrC10a : Instruction :=
  { data := [15]
    accounts := mkAccounts ["s0", "s1", "s2", "s3", "s4", "s5"]
    timestamp := 10000 }

/-- Fixture: a six-account `Prune` instruction for the large limit. -/
def instrC10b : Instruction :=
  { data := [16]
    accounts := mkAccounts ["t0", "t1", "t2", "t3", "t4", "t5"]
    timestamp := 10001 }

/-- Fixture: decoder mapping the two Prune payloads of the C10 witness. -/
def unpackW10 : List Nat → Option MarketInstruction
  | [15] => some (MarketInstruction.Prune 5)
  | _ => some (MarketInstruction.Prune 40000)

/-- Witness for C10: limit 5 is stored exactly; limit 40000 is stored as
40000 - 65536 = -25536. -/
theorem claim_c10_witness :
    (pruneRecord instrC10a 5).limit = 5 ∧
    (pruneRecord instrC10b 40000).limit = -25536 := by
  have ha := claim_c10_prune_limit_reinterpret unpackW10 0 instrC10a 5
    rfl (by decide)
  have hb := claim_c10_prune_limit_reinterpret unpackW10 0 instrC10b 40000
    rfl (by decide)
  exact ⟨ha.2.1 (by decide), (hb.2.2 (by decide)).trans (by decide)⟩

/-!
Panic-aware semantics.  Rust `Vec` indexing panics out of bounds, so the
total accessor `acct` above is only faithful where every index read is in
bounds.  The definitions below model the panic path explicitly: an account
access returns `none` when the index is out of bounds, each record builder
sequences its account reads in the order the source struct literal
evaluates them, and `fragment_instruction_checked` returns `none` exactly
when the call panics (an out-of-bounds indexing aborts the call and no
record is produced).
-/

/-- Account address at position `i`, `none` when `i` is out of bounds
(the Rust indexing panics there). -/
def acctChecked (instruction : Instruction) (i : Nat) : Option String :=
  (instruction.accounts.get? i).map AccountRef.account

/-- In bounds, the checked accessor agrees with the total one. -/
theorem acctChecked_lt (instruction : Instruction) (i : Nat)
    (h : i < instruction.accounts.length) :
    acctChecked instruction i = some (acct instruction i) := by
  unfold acctChecked acct
  rw [List.getD_eq_getD_get?, List.get?_eq_get h]
  rfl

/-- Out of bounds, the checked accessor signals the panic. -/
theorem acctChecked_le (instruction : Instruction) (i : Nat)
    (h : instruction.accounts.length ≤ i) :
    acctChecked instruction i = none := by
  unfold acctChecked
  rw [List.get?_eq_none.mpr h]
  rfl

/-- Panic-aware `InitializeMarket` record builder; account reads in the
order of the source struct literal ([0],[1],[2],[3],[4],[5],[7],[6],[8],
then the guarded [10],[11],[12]). -/
def initializeMarketRecordChecked (instruction : Instruction)
    (imi : InitializeMarketInstruction) : Option SerumMarket := do
  let market ← acctChecked instruction 0
  let request_queue_account ← acctChecked instruction 1
  let event_queue_account ← acctChecked instruction 2
  let bids_account ← acctChecked instruction 3
  let asks_account ← acctChecked instruction 4
  let coin_account ← acctChecked instruction 5
  let coin_mint ← acctChecked instruction 7
  let price_account ← acctChecked instruction 6
  let price_mint ← acctChecked instruction 8
  let open_order_authority ←
    if 11 ≤ instruction.accounts.length then
      (acctChecked instruction 10).map Option.some
    else
      pure none
  let prune_authority ←
    if 11 ≤ instruction.accounts.length then
      (acctChecked instruction 11).map Option.some
    else
      pure none
  let crank_authority ←
    if 11 ≤ instruction.accounts.length then
      (acctChecked instruction 12).map Option.some
    else
      pure none
  pure
    { market := market
      request_queue_account := request_queue_account
      event_queue_account := event_queue_account
      bids_account := bids_account
      asks_account := asks_account
      coin_account := coin_account
      coin_mint := coin_mint
      price_account := price_account
      price_mint := price_mint
      open_order_authority := open_order_authority
      prune_authority := prune_authority
      crank_authority := crank_authority
      coin_lot_size := u64_as_i64 imi.coin_lot_size
      price_currency_lot_size := u64_as_i64 imi.pc_lot_size
      fee_rate_bps := u64_as_i64 imi.fee_rate_bps
      pc_dust_threshold := u64_as_i64 imi.pc_dust_threshold
      timestamp := instruction.timestamp }

/-- Panic-aware `NewOrder` (v1) record builder; reads [0],[3],[5],[6] and
the unguarded [9]. -/
def newOrderRecordChecked (instruction : Instruction)
    (order : NewOrderInstructionV1) : Option SerumOrder := do
  let market ← acctChecked instruction 0
  let paying_account ← acctChecked instruction 3
  let coin_vault ← acctChecked instruction 5
  let pc_vault ← acctChecked instruction 6
  let msrm_discount_account ← (acctChecked instruction 9).map Option.some
  pure
    { client_order_id := u64_as_i64 order.client_id
      order_type := u16_as_i16 order.order_type
      side := u16_as_i16 order.side
      limit := none
      limit_price := u64_as_i64 order.limit_price
      max_quantity := u64_as_i64 order.max_qty
      market := market
      self_trade_behavior := none
      paying_account := paying_account
      coin_vault := coin_vault
      pc_vault := pc_vault
      msrm_discount_account := msrm_discount_account
      timestamp := instruction.timestamp }

/-- Panic-aware `CancelOrder` (v1) record builder; reads [0],[3]. -/
def cancelOrderRecordChecked (instruction : Instruction)
    (order : CancelOrderInstruction) : Option CancelledOrder := do
  let market ← acctChecked instruction 0
  let open_order_owner ← acctChecked instruction 3
  pure
    { side := some (u16_as_i16 order.side)
      order_id := toString order.order_id
      market := market
      timestamp := instruction.timestamp
      open_order_owner := open_order_owner }

/-- Panic-aware `CancelOrderByClientId` record builder; reads [0],[3]; the
out-of-scope `order.side` is again the ghost parameter. -/
def cancelOrderByClientIdRecordChecked (instruction : Instruction)
    (client_id : Nat) (ghost_order_side : Int) : Option CancelledOrder := do
  let market ← acctChecked instruction 0
  let open_order_owner ← acctChecked instruction 3
  pure
    { side := some ghost_order_side
      order_id := toString client_id
      market := market
      timestamp := instruction.timestamp
      open_order_owner := open_order_owner }

/-- Panic-aware `DisableMarket` record builder; reads [0],[1]. -/
def marketDisableRecordChecked (instruction : Instruction) :
    Option MarketDisable := do
  let market ← acctChecked instruction 0
  let authority ← acctChecked instruction 1
  pure
    { market := market
      authority := authority
      timestamp := instruction.timestamp }

/-- Panic-aware `SweepFees` record builder; reads [0],[1],[2],[3]. -/
def feeSweepRecordChecked (instruction : Instruction) : Option FeeSweep := do
  let market ← acctChecked instruction 0
  let pc_vault ← acctChecked instruction 1
  let fee_authority ← acctChecked instruction 2
  let fee_receivable_account ← acctChecked instruction 3
  pure
    { market := market
      pc_vault := pc_vault
      fee_authority := fee_authority
      fee_receivable_account := fee_receivable_account
      timestamp := instruction.timestamp }

/-- Panic-aware `NewOrderV2` record builder; reads [0],[3],[5],[6] and the
guarded [9]. -/
def newOrderV2RecordChecked (instruction : Instruction)
    (order : NewOrderInstructionV2) : Option SerumOrder := do
  let market ← acctChecked instruction 0
  let paying_account ← acctChecked instruction 3
  let coin_vault ← acctChecked instruction 5
  let pc_vault ← acctChecked instruction 6
  let msrm_discount_account ←
    if 12 ≤ instruction.accounts.length then
      (acctChecked instruction 9).map Option.some
    else
      pure none
  pure
    { client_order_id := u64_as_i64 order.client_id
      order_type := u16_as_i16 order.order_type
      side := u16_as_i16 order.side
      limit := none
      limit_price := u64_as_i64 order.limit_price
      max_quantity := u64_as_i64 order.max_qty
      market := market
      self_trade_behavior := some (u16_as_i16 order.self_trade_behavior)
      paying_account := paying_account
      coin_vault := coin_vault
      pc_vault := pc_vault
      msrm_discount_account := msrm_discount_account
      timestamp := instruction.timestamp }

/-- Panic-aware `NewOrderV3` record builder; reads [0],[6],[8],[9] and the
guarded [12]. -/
def newOrderV3RecordChecked (instruction : Instruction)
    (order : NewOrderInstructionV3) : Option SerumOrder := do
  let market ← acctChecked instruction 0
  let paying_account ← acctChecked instruction 6
  let coin_vault ← acctChecked instruction 8
  let pc_vault ← acctChecked instruction 9
  let msrm_discount_account ←
    if 12 ≤ instruction.accounts.length then
      (acctChecked instruction 12).map Option.some
    else
      pure none
  pure
    { client_order_id := u64_as_i64 order.client_id
      order_type := u16_as_i16 order.order_type
      side := u16_as_i16 order.side
      limit := some (u16_as_i16 order.limit)
      limit_price := u64_as_i64 order.limit_price
      max_quantity := u64_as_i64 order.max_qty
      market := market
      self_trade_behavior := some (u16_as_i16 order.self_trade_behavior)
      paying_account := paying_account
      coin_vault := coin_vault
      pc_vault := pc_vault
      msrm_discount_account := msrm_discount_account
      timestamp := instruction.timestamp }

/-- Panic-aware `CancelOrderV2` record builder; reads [0],[4]. -/
def cancelOrderV2RecordChecked (instruction : Instruction)
    (order : CancelOrderInstructionV2) : Option CancelledOrder := do
  let market ← acctChecked instruction 0
  let open_order_owner ← acctChecked instruction 4
  pure
    { side := some (u16_as_i16 order.side)
      order_id := toString order.order_id
      market := market
      timestamp := instruction.timestamp
      open_order_owner := open_order_owner }

/-- Panic-aware `CancelOrderByClientIdV2` record builder; reads [0],[3]. -/
def cancelOrderByClientIdV2RecordChecked (instruction : Instruction)
    (client_id : Nat) : Option CancelledOrder := do
  let market ← acctChecked instruction 0
  let open_order_owner ← acctChecked instruction 3
  pure
    { side := none
      order_id := toString client_id
      market := market
      timestamp := instruction.timestamp
      open_order_owner := open_order_owner }

/-- Panic-aware `SendTake` record builder; reads [0],[5],[6],[8],[9] and
the guarded [12]. -/
def sendTakeRecordChecked (instruction : Instruction)
    (sti : SendTakeInstruction) : Option SendTake := do
  let market ← acctChecked instruction 0
  let coin_wallet_account ← acctChecked instruction 5
  let pc_wallet_account ← acctChecked instruction 6
  let coin_vault ← acctChecked instruction 8
  let pc_vault ← acctChecked instruction 9
  let msrm_discount_account ←
    if 12 ≤ instruction.accounts.length then
      (acctChecked instruction 12).map Option.some
    else
      pure none
  pure
    { market := market
      side := u16_as_i16 sti.side
      limit_price := u64_as_i64 sti.limit_price
      max_quantity := u64_as_i64 sti.max_coin_qty
      max_pc_qty_incl_fees := u64_as_i64 sti.max_native_pc_qty_including_fees
      min_coin_qty := u64_as_i64 sti.min_coin_qty
      min_pc_qty := u64_as_i64 sti.min_native_pc_qty
      coin_wallet_account := coin_wallet_account
      pc_wallet_account := pc_wallet_account
      coin_vault := coin_vault
      pc_vault := pc_vault
      msrm_discount_account := msrm_discount_account
      timestamp := instruction.timestamp }

/-- Panic-aware `Prune` record builder; reads [0],[4],[5]. -/
def pruneRecordChecked (instruction : Instruction) (limit : Nat) :
    Option Prune := do
  let market ← acctChecked instruction 0
  let open_orders ← acctChecked instruction 4
  let open_orders_owner ← acctChecked instruction 5
  pure
    { market := market
      limit := u16_as_i16 limit
      open_orders := open_orders
      open_orders_owner := open_orders_owner
      timestamp := instruction.timestamp }

/-- Panic-aware embedding of `fragment_instruction`: `none` when the call
panics on an out-of-bounds account index, otherwise `some` of the normal
result (optional accumulation and emitted diagnostics). -/
def fragment_instruction_checked
    (unpack : List Nat → Option MarketInstruction)
    (ghost_order_side : Int) (instruction : Instruction) :
    Option (Option ResponseMap × List LogMessage) :=
  match unpack instruction.data with
  | some market_instruction =>
    match market_instruction with
    | .InitializeMarket imi => do
        let m ← initializeMarketRecordChecked instruction imi
        pure (some (insertRecord []
          (SERUM_MARKET_TABLE_NAME, SchemaHandle.markets)
          (Record.market m)), [])
    | .NewOrder order => do
        let r ← newOrderRecordChecked instruction order
        pure (some (insertRecord []
          (SERUM_MARKET_TABLE_NAME, SchemaHandle.markets)
          (Record.order r)), [])
    | .MatchOrders _ => some (none, [])
    | .ConsumeEvents _ => some (none, [])
    | .CancelOrder order => do
        let r ← cancelOrderRecordChecked instruction order
        pure (some (insertRecord []
          (SERUM_MARKET_TABLE_NAME, SchemaHandle.markets)
          (Record.cancelledOrder r)), [])
    | .SettleFunds => some (none, [])
    | .CancelOrderByClientId client_id => do
        let r ← cancelOrderByClientIdRecordChecked instruction client_id
          ghost_order_side
        pure (some (insertRecord []
          (SERUM_MARKET_TABLE_NAME, SchemaHandle.markets)
          (Record.cancelledOrder r)), [])
    | .DisableMarket => do
        let r ← marketDisableRecordChecked instruction
        pure (some (insertRecord []
          (SERUM_MARKET_DISABLE_TABLE_NAME, SchemaHandle.marketDisable)
          (Record.marketDisable r)), [])
    | .SweepFees => do
        let r ← feeSweepRecordChecked instruction
        pure (some (insertRecord []
          (SERUM_MARKET_DISABLE_TABLE_NAME, SchemaHandle.marketDisable)
          (Record.feeSweep r)), [])
    | .NewOrderV2 order => do
        let r ← newOrderV2RecordChecked instruction order
        pure (some (insertRecord []
          (SERUM_MARKET_TABLE_NAME, SchemaHandle.markets)
          (Record.order r)), [])
    | .NewOrderV3 order => do
        let r ← newOrderV3RecordChecked instruction order
        pure (some (insertRecord []
          (SERUM_MARKET_TABLE_NAME, SchemaHandle.markets)
          (Record.order r)), [])
    | .CancelOrderV2 order => do
        let r ← cancelOrderV2RecordChecked instruction order
        pure (some (insertRecord []
          (SERUM_MARKET_TABLE_NAME, SchemaHandle.markets)
          (Record.cancelledOrder r)), [])
    | .CancelOrderByClientIdV2 client_id => do
        let r ← cancelOrderByClientIdV2RecordChecked instruction client_id
        pure (some (insertRecord []
          (SERUM_MARKET_TABLE_NAME, SchemaHandle.markets)
          (Record.cancelledOrder r)), [])
    | .SendTake sti => do
        let r ← sendTakeRecordChecked instruction sti
        pure (some (insertRecord []
          (SERUM_SEND_TAKE_TABLE_NAME, SchemaHandle.sendTakes)
          (Record.sendTake r)), [])
    | .CloseOpenOrders => some (none, [])
    | .InitOpenOrders => some (none, [])
    | .Prune limit => do
        let r ← pruneRecordChecked instruction limit
        pure (some (insertRecord []
          (SERUM_PRUNE_TABLE_NAME, SchemaHandle.prune)
          (Record.prune r)), [])
    | .ConsumeEventsPermissioned _ => some (none, [])
  | none => some (none, [unrecognisedInstructionLog])

/-- With at least 13 accounts every read of the `InitializeMarket` arm is
in bounds and the checked builder agrees with the total one. -/
theorem initializeMarketRecordChecked_of_ge13 (instruction : Instruction)
    (imi : InitializeMarketInstruction)
    (h : 13 ≤ instruction.accounts.length) :
    initializeMarketRecordChecked instruction imi =
      some (initializeMarketRecord instruction imi) := by
  have e0 := acctChecked_lt instruction 0 (by omega)
  have e1 := acctChecked_lt instruction 1 (by omega)
  have e2 := acctChecked_lt instruction 2 (by omega)
  have e3 := acctChecked_lt instruction 3 (by omega)
  have e4 := acctChecked_lt instruction 4 (by omega)
  have e5 := acctChecked_lt instruction 5 (by omega)
  have e6 := acctChecked_lt instruction 6 (by omega)
  have e7 := acctChecked_lt instruction 7 (by omega)
  have e8 := acctChecked_lt instruction 8 (by omega)
  have e10 := acctChecked_lt instruction 10 (by omega)
  have e11 := acctChecked_lt instruction 11 (by omega)
  have e12 := acctChecked_lt instruction 12 (by omega)
  have hn : 11 ≤ instruction.accounts.length := by omega
  simp [initializeMarketRecordChecked, initializeMarketRecord,
    e0, e1, e2, e3, e4, e5, e6, e7, e8, e10, e11, e12, hn]

/-- With 9 or 10 accounts the guards are false, every unconditional read of
the `InitializeMarket` arm is in bounds, and the checked builder agrees
with the total one (authorities absent). -/
theorem initializeMarketRecordChecked_of_le10 (instruction : Instruction)
    (imi : InitializeMarketInstruction)
    (h9 : 9 ≤ instruction.accounts.length)
    (h10 : instruction.accounts.length ≤ 10) :
    initializeMarketRecordChecked instruction imi =
      some (initializeMarketRecord instruction imi) := by
  have e0 := acctChecked_lt instruction 0 (by omega)
  have e1 := acctChecked_lt instruction 1 (by omega)
  have e2 := acctChecked_lt instruction 2 (by omega)
  have e3 := acctChecked_lt instruction 3 (by omega)
  have e4 := acctChecked_lt instruction 4 (by omega)
  have e5 := acctChecked_lt instruction 5 (by omega)
  have e6 := acctChecked_lt instruction 6 (by omega)
  have e7 := acctChecked_lt instruction 7 (by omega)
  have e8 := acctChecked_lt instruction 8 (by omega)
  have hn : ¬ 11 ≤ instruction.accounts.length := by omega
  simp [initializeMarketRecordChecked, initializeMarketRecord,
    e0, e1, e2, e3, e4, e5, e6, e7, e8, hn]

/-- With exactly 11 or 12 accounts the `len >= 11` guard passes but the
read of accounts[11] respectively accounts[12] is out of bounds: the
`InitializeMarket` arm panics and builds no record. -/
theorem initializeMarketRecordChecked_panic (instruction : Instruction)
    (imi : InitializeMarketInstruction)
    (h11 : 11 ≤ instruction.accounts.length)
    (h12 : instruction.accounts.length ≤ 12) :
    initializeMarketRecordChecked instruction imi = none := by
  have e0 := acctChecked_lt instruction 0 (by omega)
  have e1 := acctChecked_lt instruction 1 (by omega)
  have e2 := acctChecked_lt instruction 2 (by omega)
  have e3 := acctChecked_lt instruction 3 (by omega)
  have e4 := acctChecked_lt instruction 4 (by omega)
  have e5 := acctChecked_lt instruction 5 (by omega)
  have e6 := acctChecked_lt instruction 6 (by omega)
  have e7 := acctChecked_lt instruction 7 (by omega)
  have e8 := acctChecked_lt instruction 8 (by omega)
  have e10 := acctChecked_lt instruction 10 (by omega)
  rcases (by omega :
      instruction.accounts.length = 11 ∨
        instruction.accounts.length = 12) with hE | hE
  · have f11 := acctChecked_le instruction 11 (by omega)
    simp [initializeMarketRecordChecked, e0, e1, e2, e3, e4, e5, e6, e7,
      e8, e10, f11, h11]
  · have e11 := acctChecked_lt instruction 11 (by omega)
    have f12 := acctChecked_le instruction 12 (by omega)
    simp [initializeMarketRecordChecked, e0, e1, e2, e3, e4, e5, e6, e7,
      e8, e10, e11, f12, h11]

/-- With at least 7 accounts every read of the `NewOrderV2` arm is in
bounds (the guarded accounts[9] is only read when the length is at least
12) and the checked builder agrees with the total one. -/
theorem newOrderV2RecordChecked_of_ge7 (instruction : Instruction)
    (order : NewOrderInstructionV2)
    (h : 7 ≤ instruction.accounts.length) :
    newOrderV2RecordChecked instruction order =
      some (newOrderV2Record instruction order) := by
  have e0 := acctChecked_lt instruction 0 (by omega)
  have e3 := acctChecked_lt instruction 3 (by omega)
  have e5 := acctChecked_lt instruction 5 (by omega)
  have e6 := acctChecked_lt instruction 6 (by omega)
  by_cases hn : 12 ≤ instruction.accounts.length
  · have e9 := acctChecked_lt instruction 9 (by omega)
    simp [newOrderV2RecordChecked, newOrderV2Record, e0, e3, e5, e6, e9, hn]
  · simp [newOrderV2RecordChecked, newOrderV2Record, e0, e3, e5, e6, hn]

/-- With at least 13 accounts every read of the `NewOrderV3` arm is in
bounds and the checked builder agrees with the total one. -/
theorem newOrderV3RecordChecked_of_ge13 (instruction : Instruction)
    (order : NewOrderInstructionV3)
    (h : 13 ≤ instruction.accounts.length) :
    newOrderV3RecordChecked instruction order =
      some (newOrderV3Record instruction order) := by
  have e0 := acctChecked_lt instruction 0 (by omega)
  have e6 := acctChecked_lt instruction 6 (by omega)
  have e8 := acctChecked_lt instruction 8 (by omega)
  have e9 := acctChecked_lt instruction 9 (by omega)
  have e12 := acctChecked_lt instruction 12 (by omega)
  have hn : 12 ≤ instruction.accounts.length := by omega
  simp [newOrderV3RecordChecked, newOrderV3Record, e0, e6, e8, e9, e12, hn]

/-- With 10 or 11 accounts the `NewOrderV3` guard is false, the
unconditional reads are in bounds, and the checked builder agrees with the
total one (discount absent). -/
theorem newOrderV3RecordChecked_of_le11 (instruction : Instruction)
    (order : NewOrderInstructionV3)
    (hl : 10 ≤ instruction.accounts.length)
    (hu : instruction.accounts.length ≤ 11) :
    newOrderV3RecordChecked instruction order =
      some (newOrderV3Record instruction order) := by
  have e0 := acctChecked_lt instruction 0 (by omega)
  have e6 := acctChecked_lt instruction 6 (by omega)
  have e8 := acctChecked_lt instruction 8 (by omega)
  have e9 := acctChecked_lt instruction 9 (by omega)
  have hn : ¬ 12 ≤ instruction.accounts.length := by omega
  simp [newOrderV3RecordChecked, newOrderV3Record, e0, e6, e8, e9, hn]

/-- With exactly 12 accounts the `NewOrderV3` guard `len >= 12` passes but
accounts[12] is out of bounds: the arm panics and builds no record. -/
theorem newOrderV3RecordChecked_panic (instruction : Instruction)
    (order : NewOrderInstructionV3)
    (hE : instruction.accounts.length = 12) :
    newOrderV3RecordChecked instruction order = none := by
  have e0 := acctChecked_lt instruction 0 (by omega)
  have e6 := acctChecked_lt instruction 6 (by omega)
  have e8 := acctChecked_lt instruction 8 (by omega)
  have e9 := acctChecked_lt instruction 9 (by omega)
  have f12 := acctChecked_le instruction 12 (by omega)
  have hn : 12 ≤ instruction.accounts.length := by omega
  simp [newOrderV3RecordChecked, e0, e6, e8, e9, f12, hn]

/-- With at least 13 accounts every read of the `SendTake` arm is in
bounds and the checked builder agrees with the total one. -/
theorem sendTakeRecordChecked_of_ge13 (instruction : Instruction)
    (sti : SendTakeInstruction)
    (h : 13 ≤ instruction.accounts.length) :
    sendTakeRecordChecked instruction sti =
      some (sendTakeRecord instruction sti) := by
  have e0 := acctChecked_lt instruction 0 (by omega)
  have e5 := acctChecked_lt instruction 5 (by omega)
  have e6 := acctChecked_lt instruction 6 (by omega)
  have e8 := acctChecked_lt instruction 8 (by omega)
  have e9 := acctChecked_lt instruction 9 (by omega)
  have e12 := acctChecked_lt instruction 12 (by omega)
  have hn : 12 ≤ instruction.accounts.length := by omega
  simp [sendTakeRecordChecked, sendTakeRecord, e0, e5, e6, e8, e9, e12, hn]

/-- With 10 or 11 accounts the `SendTake` guard is false, the
unconditional reads are in bounds, and the checked builder agrees with the
total one (discount absent). -/
theorem sendTakeRecordChecked_of_le11 (instruction : Instruction)
    (sti : SendTakeInstruction)
    (hl : 10 ≤ instruction.accounts.length)
    (hu : instruction.accounts.length ≤ 11) :
    sendTakeRecordChecked instruction sti =
      some (sendTakeRecord instruction sti) := by
  have e0 := acctChecked_lt instruction 0 (by omega)
  have e5 := acctChecked_lt instruction 5 (by omega)
  have e6 := acctChecked_lt instruction 6 (by omega)
  have e8 := acctChecked_lt instruction 8 (by omega)
  have e9 := acctChecked_lt instruction 9 (by omega)
  have hn : ¬ 12 ≤ instruction.accounts.length := by omega
  simp [sendTakeRecordChecked, sendTakeRecord, e0, e5, e6, e8, e9, hn]

/-- With exactly 12 accounts the `SendTake` guard `len >= 12` passes but
accounts[12] is out of bounds: the arm panics and builds no record. -/
theorem sendTakeRecordChecked_panic (instruction : Instruction)
    (sti : SendTakeInstruction)
    (hE : instruction.accounts.length = 12) :
    sendTakeRecordChecked instruction sti = none := by
  have e0 := acctChecked_lt instruction 0 (by omega)
  have e5 := acctChecked_lt instruction 5 (by omega)
  have e6 := acctChecked_lt instruction 6 (by omega)
  have e8 := acctChecked_lt instruction 8 (by omega)
  have e9 := acctChecked_lt instruction 9 (by omega)
  have f12 := acctChecked_le instruction 12 (by omega)
  have hn : 12 ≤ instruction.accounts.length := by omega
  simp [sendTakeRecordChecked, e0, e5, e6, e8, e9, f12, hn]

/-- Dispatch lemma: on an `InitializeMarket` decode the checked projector
is the checked builder followed by the key wrap. -/
theorem fragmentChecked_initializeMarket
    (unpack : List Nat → Option MarketInstruction) (g : Int)
    (instr : Instruction) (imi : InitializeMarketInstruction)
    (h : unpack instr.data = some (MarketInstruction.InitializeMarket imi)) :
    fragment_instruction_checked unpack g instr =
      (initializeMarketRecordChecked instr imi).bind (fun m =>
        some (some (insertRecord []
          (SERUM_MARKET_TABLE_NAME, SchemaHandle.markets)
          (Record.market m)), [])) := by
  unfold fragment_instruction_checked
  rw [h]
  rfl

/-- Dispatch lemma: on a `NewOrderV2` decode the checked projector is the
checked builder followed by the key wrap. -/
theorem fragmentChecked_newOrderV2
    (unpack : List Nat → Option MarketInstruction) (g : Int)
    (instr : Instruction) (order : NewOrderInstructionV2)
    (h : unpack instr.data = some (MarketInstruction.NewOrderV2 order)) :
    fragment_instruction_checked unpack g instr =
      (newOrderV2RecordChecked instr order).bind (fun r =>
        some (some (insertRecord []
          (SERUM_MARKET_TABLE_NAME, SchemaHandle.markets)
          (Record.order r)), [])) := by
  unfold fragment_instruction_checked
  rw [h]
  rfl

/-- Dispatch lemma: on a `NewOrderV3` decode the checked projector is the
checked builder followed by the key wrap. -/
theorem fragmentChecked_newOrderV3
    (unpack : List Nat → Option MarketInstruction) (g : Int)
    (instr : Instruction) (order : NewOrderInstructionV3)
    (h : unpack instr.data = some (MarketInstruction.NewOrderV3 order)) :
    fragment_instruction_checked unpack g instr =
      (newOrderV3RecordChecked instr order).bind (fun r =>
        some (some (insertRecord []
          (SERUM_MARKET_TABLE_NAME, SchemaHandle.markets)
          (Record.order r)), [])) := by
  unfold fragment_instruction_checked
  rw [h]
  rfl

/-- Dispatch lemma: on a `SendTake` decode the checked projector is the
checked builder followed by the key wrap. -/
theorem fragmentChecked_sendTake
    (unpack : List Nat → Option MarketInstruction) (g : Int)
    (instr : Instruction) (sti : SendTakeInstruction)
    (h : unpack instr.data = some (MarketInstruction.SendTake sti)) :
    fragment_instruction_checked unpack g instr =
      (sendTakeRecordChecked instr sti).bind (fun r =>
        some (some (insertRecord []
          (SERUM_SEND_TAKE_TABLE_NAME, SchemaHandle.sendTakes)
          (Record.sendTake r)), [])) := by
  unfold fragment_instruction_checked
  rw [h]
  rfl

/-- Fixture: an eleven-account `InitializeMarket` instruction. -/
def instrC3p : Instruction :=
  { data := [17]
    accounts := mkAccounts ["u0", "u1", "u2", "u3", "u4", "u5", "u6", "u7",
      "u8", "u9", "u10"]
    timestamp := 3002 }

/-- Fixture: a twelve-account `InitializeMarket` instruction. -/
def instrC3q : Instruction :=
  { data := [18]
    accounts := mkAccounts ["w0", "w1", "w2", "w3", "w4", "w5", "w6", "w7",
      "w8", "w9", "w10", "w11"]
    timestamp := 3003 }

/-- Counterexample for C3: the claim asserts that with account list length
at least 11 the Market record's three authorities are present and equal
accounts[10..12].  With exactly 11 or 12 accounts the `len >= 11` guard
passes but the source then reads `accounts[11]` respectively
`accounts[12]` out of bounds (lines 291, 296): the call panics and no
record is produced, so no record with present authorities exists at these
in-threshold lengths. -/
theorem claim_c3_counterexample :
    unpackW3 instrC3p.data =
      some (MarketInstruction.InitializeMarket imiFix) ∧
    11 ≤ instrC3p.accounts.length ∧
    fragment_instruction_checked unpackW3 0 instrC3p = none ∧
    unpackW3 instrC3q.data =
      some (MarketInstruction.InitializeMarket imiFix) ∧
    11 ≤ instrC3q.accounts.length ∧
    fragment_instruction_checked unpackW3 0 instrC3q = none :=
  ⟨rfl, by decide, rfl, rfl, by decide, rfl⟩

/-- C3 (amended): for every `InitializeMarket` instruction, with at least
13 accounts the call produces the Market record with all three authorities
present, equal to accounts[10], accounts[11] and accounts[12]; with 9 or
10 accounts it produces the record with all three absent; with exactly 11
or 12 accounts the length-at-least-11 guard passes but the read of
accounts[11] or accounts[12] is out of bounds and the call panics,
producing no record; in every produced record the three authorities are
present or absent together. -/
theorem claim_c3_authorities_checked
    (unpack : List Nat → Option MarketInstruction) (g : Int)
    (instr : Instruction) (imi : InitializeMarketInstruction)
    (h : unpack instr.data = some (MarketInstruction.InitializeMarket imi)) :
    (13 ≤ instr.accounts.length →
      fragment_instruction_checked unpack g instr =
        some (some [((SERUM_MARKET_TABLE_NAME, SchemaHandle.markets),
               [Record.market (initializeMarketRecord instr imi)])], []) ∧
      (initializeMarketRecord instr imi).open_order_authority =
        some (acct instr 10) ∧
      (initializeMarketRecord instr imi).prune_authority =
        some (acct instr 11) ∧
      (initializeMarketRecord instr imi).crank_authority =
        some (acct instr 12)) ∧
    (9 ≤ instr.accounts.length → instr.accounts.length ≤ 10 →
      fragment_instruction_checked unpack g instr =
        some (some [((SERUM_MARKET_TABLE_NAME, SchemaHandle.markets),
               [Record.market (initializeMarketRecord instr imi)])], []) ∧
      (initializeMarketRecord instr imi).open_order_authority = none ∧
      (initializeMarketRecord instr imi).prune_authority = none ∧
      (initializeMarketRecord instr imi).crank_authority = none) ∧
    (11 ≤ instr.accounts.length → instr.accounts.length ≤ 12 →
      fragment_instruction_checked unpack g instr = none) ∧
    ((initializeMarketRecord instr imi).open_order_authority.isSome ↔
      (initializeMarketRecord instr imi).prune_authority.isSome) ∧
    ((initializeMarketRecord instr imi).prune_authority.isSome ↔
      (initializeMarketRecord instr imi).crank_authority.isSome) := by
  refine ⟨?_, ?_, ?_, ?_, ?_⟩
  · intro hn
    have hg : 11 ≤ instr.accounts.length := by omega
    refine ⟨?_, ?_, ?_, ?_⟩
    · rw [fragmentChecked_initializeMarket unpack g instr imi h,
        initializeMarketRecordChecked_of_ge13 instr imi hn]
      rfl
    all_goals simp [initializeMarketRecord, hg]
  · intro h9 h10
    have hg : ¬ 11 ≤ instr.accounts.length := by omega
    refine ⟨?_, ?_, ?_, ?_⟩
    · rw [fragmentChecked_initializeMarket unpack g instr imi h,
        initializeMarketRecordChecked_of_le10 instr imi h9 h10]
      rfl
    all_goals simp [initializeMarketRecord, hg]
  · intro h11 h12
    rw [fragmentChecked_initializeMarket unpack g instr imi h,
      initializeMarketRecordChecked_panic instr imi h11 h12]
    rfl
  all_goals
    by_cases hg : 11 ≤ instr.accounts.length <;>
      simp [initializeMarketRecord, hg]

/-- Witness for the amended C3: with 13 accounts the call completes with
all three authorities set from accounts[10..12]; with exactly 10 accounts
it completes with all three absent. -/
theorem claim_c3_checked_witness :
    fragment_instruction_checked unpackW3 0 instrC3a =
      some (some [((SERUM_MARKET_TABLE_NAME, SchemaHandle.markets),
             [Record.market (initializeMarketRecord instrC3a imiFix)])],
            []) ∧
    (initializeMarketRecord instrC3a imiFix).open_order_authority =
      some "a10" ∧
    (initializeMarketRecord instrC3a imiFix).prune_authority = some "a11" ∧
    (initializeMarketRecord instrC3a imiFix).crank_authority = some "a12" ∧
    fragment_instruction_checked unpackW3 0 instrC3b =
      some (some [((SERUM_MARKET_TABLE_NAME, SchemaHandle.markets),
             [Record.market (initializeMarketRecord instrC3b imiFix)])],
            []) ∧
    (initializeMarketRecord instrC3b imiFix).open_order_authority = none ∧
    (initializeMarketRecord instrC3b imiFix).prune_authority = none ∧
    (initializeMarketRecord instrC3b imiFix).crank_authority = none := by
  have ha := (claim_c3_authorities_checked unpackW3 0 instrC3a imiFix
    rfl).1 (by decide)
  have hb := (claim_c3_authorities_checked unpackW3 0 instrC3b imiFix
    rfl).2.1 (by decide) (by decide)
  exact ⟨ha.1, ha.2.1.trans (by decide), ha.2.2.1.trans (by decide),
    ha.2.2.2.trans (by decide), hb.1, hb.2.1, hb.2.2.1, hb.2.2.2⟩

/-- Fixture: a twelve-account `NewOrderV3` instruction. -/
def instrC4p : Instruction :=
  { data := [3]
    accounts := mkAccounts ["x0", "x1", "x2", "x3", "x4", "x5", "x6", "x7",
      "x8", "x9", "x10", "x11"]
    timestamp := 4003 }

/-- Fixture: a twelve-account `SendTake` instruction. -/
def instrC4q : Instruction :=
  { data := [99]
    accounts := mkAccounts ["y0", "y1", "y2", "y3", "y4", "y5", "y6", "y7",
      "y8", "y9", "y10", "y11"]
    timestamp := 4004 }

/-- Counterexample for C4: the claim asserts that for `NewOrderV3` and
`SendTake` the discount field is present, taken from accounts[12], exactly
when the account list length meets the threshold 12.  With exactly 12
accounts the `len >= 12` guard passes but the source then reads
`accounts[12]` out of bounds (lines 511, 597): the call panics and no
record is produced, so no record with a present discount field exists at
the claim's own threshold. -/
theorem claim_c4_counterexample :
    unpackW4 instrC4p.data = some (MarketInstruction.NewOrderV3 o3fix) ∧
    12 ≤ instrC4p.accounts.length ∧
    fragment_instruction_checked unpackW4 0 instrC4p = none ∧
    unpackW4 instrC4q.data = some (MarketInstruction.SendTake stiFix) ∧
    12 ≤ instrC4q.accounts.length ∧
    fragment_instruction_checked unpackW4 0 instrC4q = none :=
  ⟨rfl, by decide, rfl, rfl, by decide, rfl⟩

/-- C4 (amended): for `NewOrderV2` with at least 7 accounts the produced
record's discount field is present exactly when the account list length is
at least 12, taken from accounts[9], and is otherwise exactly `none`.  For
`NewOrderV3` and `SendTake`: with at least 13 accounts the record is
produced with the discount present and equal to accounts[12]; with 10 or
11 accounts it is produced with the discount exactly `none`; with exactly
12 accounts the guard passes but the read of accounts[12] is out of bounds
and the call panics, producing no record. -/
theorem claim_c4_msrm_discount_checked
    (unpack : List Nat → Option MarketInstruction) (g : Int)
    (i2 i3 i4 : Instruction) (o2 : NewOrderInstructionV2)
    (o3 : NewOrderInstructionV3) (sti : SendTakeInstruction)
    (h2 : unpack i2.data = some (MarketInstruction.NewOrderV2 o2))
    (h3 : unpack i3.data = some (MarketInstruction.NewOrderV3 o3))
    (h4 : unpack i4.data = some (MarketInstruction.SendTake sti)) :
    (7 ≤ i2.accounts.length →
      fragment_instruction_checked unpack g i2 =
        some (some [((SERUM_MARKET_TABLE_NAME, SchemaHandle.markets),
               [Record.order (newOrderV2Record i2 o2)])], []) ∧
      (newOrderV2Record i2 o2).msrm_discount_account =
        (if 12 ≤ i2.accounts.length then some (acct i2 9) else none) ∧
      ((newOrderV2Record i2 o2).msrm_discount_account.isSome ↔
        12 ≤ i2.accounts.length)) ∧
    (13 ≤ i3.accounts.length →
      fragment_instruction_checked unpack g i3 =
        some (some [((SERUM_MARKET_TABLE_NAME, SchemaHandle.markets),
               [Record.order (newOrderV3Record i3 o3)])], []) ∧
      (newOrderV3Record i3 o3).msrm_discount_account =
        some (acct i3 12)) ∧
    (10 ≤ i3.accounts.length → i3.accounts.length ≤ 11 →
      fragment_instruction_checked unpack g i3 =
        some (some [((SERUM_MARKET_TABLE_NAME, SchemaHandle.markets),
               [Record.order (newOrderV3Record i3 o3)])], []) ∧
      (newOrderV3Record i3 o3).msrm_discount_account = none) ∧
    (i3.accounts.length = 12 →
      fragment_instruction_checked unpack g i3 = none) ∧
    (13 ≤ i4.accounts.length →
      fragment_instruction_checked unpack g i4 =
        some (some [((SERUM_SEND_TAKE_TABLE_NAME, SchemaHandle.sendTakes),
               [Record.sendTake (sendTakeRecord i4 sti)])], []) ∧
      (sendTakeRecord i4 sti).msrm_discount_account =
        some (acct i4 12)) ∧
    (10 ≤ i4.accounts.length → i4.accounts.length ≤ 11 →
      fragment_instruction_checked unpack g i4 =
        some (some [((SERUM_SEND_TAKE_TABLE_NAME, SchemaHandle.sendTakes),
               [Record.sendTake (sendTakeRecord i4 sti)])], []) ∧
      (sendTakeRecord i4 sti).msrm_discount_account = none) ∧
    (i4.accounts.length = 12 →
      fragment_instruction_checked unpack g i4 = none) := by
  refine ⟨?_, ?_, ?_, ?_, ?_, ?_, ?_⟩
  · intro hn
    refine ⟨?_, rfl, ?_⟩
    · rw [fragmentChecked_newOrderV2 unpack g i2 o2 h2,
        newOrderV2RecordChecked_of_ge7 i2 o2 hn]
      rfl
    · by_cases hg : 12 ≤ i2.accounts.length <;> simp [newOrderV2Record, hg]
  · intro hn
    have hg : 12 ≤ i3.accounts.length := by omega
    refine ⟨?_, ?_⟩
    · rw [fragmentChecked_newOrderV3 unpack g i3 o3 h3,
        newOrderV3RecordChecked_of_ge13 i3 o3 hn]
      rfl
    · simp [newOrderV3Record, hg]
  · intro hl hu
    have hg : ¬ 12 ≤ i3.accounts.length := by omega
    refine ⟨?_, ?_⟩
    · rw [fragmentChecked_newOrderV3 unpack g i3 o3 h3,
        newOrderV3RecordChecked_of_le11 i3 o3 hl hu]
      rfl
    · simp [newOrderV3Record, hg]
  · intro hE
    rw [fragmentChecked_newOrderV3 unpack g i3 o3 h3,
      newOrderV3RecordChecked_panic i3 o3 hE]
    rfl
  · intro hn
    have hg : 12 ≤ i4.accounts.length := by omega
    refine ⟨?_, ?_⟩
    · rw [fragmentChecked_sendTake unpack g i4 sti h4,
        sendTakeRecordChecked_of_ge13 i4 sti hn]
      rfl
    · simp [sendTakeRecord, hg]
  · intro hl hu
    have hg : ¬ 12 ≤ i4.accounts.length := by omega
    refine ⟨?_, ?_⟩
    · rw [fragmentChecked_sendTake unpack g i4 sti h4,
        sendTakeRecordChecked_of_le11 i4 sti hl hu]
      rfl
    · simp [sendTakeRecord, hg]
  · intro hE
    rw [fragmentChecked_sendTake unpack g i4 sti h4,
      sendTakeRecordChecked_panic i4 sti hE]
    rfl

/-- Witness for the amended C4: a 12-account `NewOrderV2` completes with
the discount set to accounts[9]; a 13-account `NewOrderV3` completes with
the discount set to accounts[12]; an 11-account `SendTake` completes with
the discount absent. -/
theorem claim_c4_checked_witness :
    fragment_instruction_checked unpackW4 0 instrC4a =
      some (some [((SERUM_MARKET_TABLE_NAME, SchemaHandle.markets),
             [Record.order (newOrderV2Record instrC4a o2fix)])], []) ∧
    (newOrderV2Record instrC4a o2fix).msrm_discount_account = some "c9" ∧
    fragment_instruction_checked unpackW4 0 instrC4b =
      some (some [((SERUM_MARKET_TABLE_NAME, SchemaHandle.markets),
             [Record.order (newOrderV3Record instrC4b o3fix)])], []) ∧
    (newOrderV3Record instrC4b o3fix).msrm_discount_account = some "d12" ∧
    fragment_instruction_checked unpackW4 0 instrC4c =
      some (some [((SERUM_SEND_TAKE_TABLE_NAME, SchemaHandle.sendTakes),
             [Record.sendTake (sendTakeRecord instrC4c stiFix)])], []) ∧
    (sendTakeRecord instrC4c stiFix).msrm_discount_account = none := by
  have h := claim_c4_msrm_discount_checked unpackW4 0 instrC4a instrC4b
    instrC4c o2fix o3fix stiFix rfl rfl rfl
  have h2 := h.1 (by decide)
  have h3 := h.2.1 (by decide)
  have h4 := h.2.2.2.2.2.1 (by decide) (by decide)
  exact ⟨h2.1, h2.2.1.trans (by decide), h3.1, h3.2.trans (by decide),
    h4.1, h4.2⟩
